import Mathlib

/-!
# Verification of the `pcb_board` board-descriptor normalizer

Shallow embedding of `src/pcb/pcb_board.ts`: the Zod schema
`pcb_board = z.preprocess(..., z.intersection(pcb_board_base, pcb_board_shape_properties))`
together with the unrelated `autorouting_error` schema.

Modelling conventions:
* A raw input record is a structure of `Option` fields; `none` models a JS
  field that is `undefined` / absent (the code only ever tests `!== undefined`).
* Raw field values carry the already-typed payloads (numbers as `Rat`,
  strings as `String`, points as `Point`); wrong-typed JSON payloads are
  outside the modelled input space except where a claim depends on the
  parse (length positivity, enum membership).
* Zod validation failure is `Except.error` carrying the ordered list of
  issues zod would aggregate: for the intersection, the issues of the left
  (base) side followed by the issues of the right (discriminated-union)
  side; inside an object, issues in field-declaration order.  The `throw`
  inside `preprocess` aborts with exactly its one custom issue.
-/

/-- The issue kinds the schemas of `pcb_board.ts` can produce, mirroring
zod issue codes.  The spec's error taxonomy maps onto them as:
`ConflictingShapeFields` = the thrown `custom` issue,
`UnknownOrMismatchedShape` = `invalidUnionDiscriminator`,
`MissingRequiredField` = `required` (invalid_type, received undefined),
`InvalidEnumerationValue` = `invalidEnumValue`,
`InvalidFieldType` = `invalidType` / `invalidLiteral`. -/
inductive ZodIssue where
  | custom (message : String)
  | invalidUnionDiscriminator
  | required (path : String)
  | invalidLiteral (path : String)
  | invalidEnumValue (path : String)
  | invalidType (path : String)
deriving DecidableEq, Repr

/-- Is this issue a missing-required-field (zod "Required") issue? -/
def ZodIssue.isRequired : ZodIssue → Bool
  | .required _ => true
  | _ => false

/-- Modelled from the spec: the `point` primitive from `src/common` is not
under `src/`; per §6 it is "a 2D coordinate value type ... constructible
from, and comparable for, x/y numeric components". -/
structure Point where
  x : Rat
  y : Rat
deriving DecidableEq, Repr

/-- Modelled from the spec: the identifier generator
(`getZodPrefixedIdWithDefault`) is not under `src/`; per §6 it produces a
fresh unique string identifier for an entity-kind tag when the caller does
not supply one.  Uniqueness is its only hard contract, so a single run of
the generator is modelled as a fixed function of the kind tag. -/
def generatedId (kind : String) : String := kind ++ "_generated"

/-- Modelled from the spec: the `length` primitive from `src/units` is not
under `src/`; per §6 it parses raw numeric-or-string input into a physical
length, and per §4.1 step 3 a valid length is a positive magnitude in a
recognized unit.  A raw length is modelled as its `Rat` magnitude in the
canonical unit (mm); parsing requires positivity and a failure is an
`invalidType` issue on the field's path. -/
def parse_length (path : String) (r : Rat) : Except ZodIssue Rat :=
  if 0 < r then .ok r else .error (.invalidType path)

/-- Modelled from the spec: `ninePointAnchor` from `src/common` is not
under `src/`; per §6 it is an enumeration of "the nine standard relative
alignment positions (e.g., corners, edge-midpoints, center)" and the core
only needs membership validation. -/
def ninePointAnchorValues : List String :=
  ["top_left", "top_center", "top_right",
   "center_left", "center", "center_right",
   "bottom_left", "bottom_center", "bottom_right"]

/-- The raw, loosely-typed input record (`RawBoardInput` in the spec): a
superset bag of every field the combined schema mentions, each optional. -/
structure RawBoardInput where
  type_ : Option String := none
  pcb_board_id : Option String := none
  pcb_panel_id : Option String := none
  is_subcircuit : Option Bool := none
  subcircuit_id : Option String := none
  center : Option Point := none
  display_offset_x : Option String := none
  display_offset_y : Option String := none
  thickness : Option Rat := none
  num_layers : Option Rat := none
  material : Option String := none
  anchor_position : Option Point := none
  anchor_alignment : Option String := none
  position_mode : Option String := none
  shape : Option String := none
  width : Option Rat := none
  height : Option Rat := none
  outline : Option (List Point) := none
deriving DecidableEq, Repr

/-- Shape-specific properties of the output, the discriminated union of
`pcb_board_rect_properties` and `pcb_board_polygon_properties`. -/
inductive PcbBoardShapeProperties where
  | rect (width height : Rat)
  | polygon (outline : List Point)
deriving DecidableEq, Repr

/-- The canonical output descriptor: `pcb_board_base` fields (defaults
applied) intersected with the shape-specific properties. -/
structure PcbBoard where
  type_ : String
  pcb_board_id : String
  pcb_panel_id : Option String
  is_subcircuit : Option Bool
  subcircuit_id : Option String
  center : Point
  display_offset_x : Option String
  display_offset_y : Option String
  thickness : Rat
  num_layers : Rat
  material : String
  anchor_position : Option Point
  anchor_alignment : Option String
  position_mode : Option String
  shapeProps : PcbBoardShapeProperties
deriving DecidableEq, Repr

/-- The discriminant of a produced descriptor. -/
def PcbBoard.shape (d : PcbBoard) : String :=
  match d.shapeProps with
  | .rect _ _ => "rect"
  | .polygon _ => "polygon"

/-- The `width` field of a produced descriptor, absent on polygons. -/
def PcbBoard.width (d : PcbBoard) : Option Rat :=
  match d.shapeProps with
  | .rect w _ => some w
  | .polygon _ => none

/-- The `height` field of a produced descriptor, absent on polygons. -/
def PcbBoard.height (d : PcbBoard) : Option Rat :=
  match d.shapeProps with
  | .rect _ h => some h
  | .polygon _ => none

/-- The `outline` field of a produced descriptor, absent on rects. -/
def PcbBoard.outline (d : PcbBoard) : Option (List Point) :=
  match d.shapeProps with
  | .rect _ _ => none
  | .polygon o => some o

/-- The message of the conflict error thrown inside the preprocess step
(lines 71-80 of `pcb_board.ts`). -/
def conflictMessage : String :=
  "Cannot specify both width/height and outline. Use width/height for rectangular boards or outline for polygon boards."

/-- In JS, `!boardInput.shape` is true when the field is absent
(`undefined`) or holds a falsy value; for string-valued tags the only
falsy value is the empty string. -/
def shapeFalsy : Option String → Bool
  | none => true
  | some s => s = ""

/-- The `z.preprocess` callback of `pcb_board` (lines 64-94): conflict
detection first, then shape inference for a falsy `shape` field.  The
thrown `ZodError` is modelled as `Except.error` of its single issue. -/
def pcb_board_preprocess (raw : RawBoardInput) : Except ZodIssue RawBoardInput :=
  let hasWidthHeight := raw.width.isSome || raw.height.isSome
  let hasOutline := raw.outline.isSome
  if hasWidthHeight && hasOutline then
    .error (.custom conflictMessage)
  else if shapeFalsy raw.shape then
    if hasOutline then
      .ok { raw with shape := some "polygon" }
    else if hasWidthHeight then
      .ok { raw with shape := some "rect" }
    else
      .ok raw
  else
    .ok raw

/-- The issues (if any) of one fallible field parse. -/
def errs {α : Type} : Except ZodIssue α → List ZodIssue
  | .ok _ => []
  | .error e => [e]

/-- Parse of `type: z.literal("pcb_board")`. -/
def parse_type_literal (lit : String) (o : Option String) : Except ZodIssue String :=
  match o with
  | some s => if s = lit then .ok s else .error (.invalidLiteral "type")
  | none => .error (.invalidLiteral "type")

/-- Parse of the required `center: point` field. -/
def parse_center (o : Option Point) : Except ZodIssue Point :=
  match o with
  | some p => .ok p
  | none => .error (.required "center")

/-- Parse of `thickness: length.optional().default(1.4)`: a missing value
is replaced by the default `1.4` and then parsed by `length`. -/
def parse_thickness (o : Option Rat) : Except ZodIssue Rat :=
  match o with
  | some r => parse_length "thickness" r
  | none => parse_length "thickness" (14 / 10 : Rat)

/-- Parse of `material: z.enum(["fr4", "fr1"]).default("fr4")`. -/
def parse_material (o : Option String) : Except ZodIssue String :=
  match o with
  | some m => if m = "fr4" ∨ m = "fr1" then .ok m else .error (.invalidEnumValue "material")
  | none => .ok "fr4"

/-- Parse of `anchor_alignment: ninePointAnchor.optional()`. -/
def parse_anchor_alignment (o : Option String) : Except ZodIssue (Option String) :=
  match o with
  | some a =>
      if a ∈ ninePointAnchorValues then .ok (some a)
      else .error (.invalidEnumValue "anchor_alignment")
  | none => .ok none

/-- Parse of `position_mode: z.enum(["relative_to_panel_anchor", "none"]).optional()`. -/
def parse_position_mode (o : Option String) : Except ZodIssue (Option String) :=
  match o with
  | some p =>
      if p = "relative_to_panel_anchor" ∨ p = "none" then .ok (some p)
      else .error (.invalidEnumValue "position_mode")
  | none => .ok none

/-- The common fields of the output before the shape properties are merged
in: the parse result of `pcb_board_base`. -/
structure PcbBoardBase where
  type_ : String
  pcb_board_id : String
  pcb_panel_id : Option String
  is_subcircuit : Option Bool
  subcircuit_id : Option String
  center : Point
  display_offset_x : Option String
  display_offset_y : Option String
  thickness : Rat
  num_layers : Rat
  material : String
  anchor_position : Option Point
  anchor_alignment : Option String
  position_mode : Option String
deriving DecidableEq, Repr

/-- The aggregated issues of parsing a record against `pcb_board_base`,
in field-declaration order. -/
def pcb_board_base_issues (raw : RawBoardInput) : List ZodIssue :=
  errs (parse_type_literal "pcb_board" raw.type_) ++
  errs (parse_center raw.center) ++
  errs (parse_thickness raw.thickness) ++
  errs (parse_material raw.material) ++
  errs (parse_anchor_alignment raw.anchor_alignment) ++
  errs (parse_position_mode raw.position_mode)

/-- Parse against `pcb_board_base` (lines 13-38): literal `type`, generated
default for a missing `pcb_board_id`, required `center`, defaulted
`thickness` / `num_layers` / `material`, validated optional enums; all
other fields pass through unvalidated (their raw payloads are well typed
in this model). -/
def pcb_board_base_parse (raw : RawBoardInput) : Except (List ZodIssue) PcbBoardBase :=
  match parse_type_literal "pcb_board" raw.type_, parse_center raw.center,
        parse_thickness raw.thickness, parse_material raw.material,
        parse_anchor_alignment raw.anchor_alignment, parse_position_mode raw.position_mode with
  | .ok t, .ok c, .ok th, .ok m, .ok aa, .ok pm =>
      .ok { type_ := t
            pcb_board_id := raw.pcb_board_id.getD (generatedId "pcb_board")
            pcb_panel_id := raw.pcb_panel_id
            is_subcircuit := raw.is_subcircuit
            subcircuit_id := raw.subcircuit_id
            center := c
            display_offset_x := raw.display_offset_x
            display_offset_y := raw.display_offset_y
            thickness := th
            num_layers := raw.num_layers.getD 4
            material := m
            anchor_position := raw.anchor_position
            anchor_alignment := aa
            position_mode := pm }
  | _, _, _, _, _, _ => .error (pcb_board_base_issues raw)

/-- Parse of the required `width: length` field of `pcb_board_rect_properties`. -/
def parse_width (o : Option Rat) : Except ZodIssue Rat :=
  match o with
  | some r => parse_length "width" r
  | none => .error (.required "width")

/-- Parse of the required `height: length` field of `pcb_board_rect_properties`. -/
def parse_height (o : Option Rat) : Except ZodIssue Rat :=
  match o with
  | some r => parse_length "height" r
  | none => .error (.required "height")

/-- Parse against `pcb_board_shape_properties` (lines 41-55), the
discriminated union on `shape`: the `rect` option requires `width` and
`height` as lengths, the `polygon` option requires `outline`; any other
discriminator value (including a missing one) yields zod's single
invalid-union-discriminator issue. -/
def pcb_board_shape_parse (raw : RawBoardInput) :
    Except (List ZodIssue) PcbBoardShapeProperties :=
  match raw.shape with
  | some "rect" =>
      match parse_width raw.width, parse_height raw.height with
      | .ok w, .ok h => .ok (.rect w h)
      | w, h => .error (errs w ++ errs h)
  | some "polygon" =>
      match raw.outline with
      | some pts => .ok (.polygon pts)
      | none => .error [.required "outline"]
  | _ => .error [.invalidUnionDiscriminator]

/-- The issues (if any) of one side of the intersection. -/
def errsL {α : Type} : Except (List ZodIssue) α → List ZodIssue
  | .ok _ => []
  | .error es => es

/-- Merge the two sides of the intersection: the (disjoint-keyed) base
fields and the shape-specific fields of one descriptor. -/
def mkPcbBoard (b : PcbBoardBase) (s : PcbBoardShapeProperties) : PcbBoard :=
  { type_ := b.type_
    pcb_board_id := b.pcb_board_id
    pcb_panel_id := b.pcb_panel_id
    is_subcircuit := b.is_subcircuit
    subcircuit_id := b.subcircuit_id
    center := b.center
    display_offset_x := b.display_offset_x
    display_offset_y := b.display_offset_y
    thickness := b.thickness
    num_layers := b.num_layers
    material := b.material
    anchor_position := b.anchor_position
    anchor_alignment := b.anchor_alignment
    position_mode := b.position_mode
    shapeProps := s }

/-- Parse against `pcb_board_combined = z.intersection(pcb_board_base,
pcb_board_shape_properties)` (lines 58-61): both sides are parsed; on
success their (disjoint-keyed) results merge, otherwise the issues of the
left side precede the issues of the right side. -/
def pcb_board_combined_parse (raw : RawBoardInput) : Except (List ZodIssue) PcbBoard :=
  match pcb_board_base_parse raw, pcb_board_shape_parse raw with
  | .ok b, .ok s => .ok (mkPcbBoard b s)
  | b, s => .error (errsL b ++ errsL s)

/-- The full `pcb_board` schema (lines 63-94), the spec's
`normalize(raw)`: the preprocess step (conflict detection and shape
inference) followed by the combined-schema parse.  A throw inside the
preprocess aborts the parse with exactly that issue. -/
def pcb_board_parse (raw : RawBoardInput) : Except (List ZodIssue) PcbBoard :=
  match pcb_board_preprocess raw with
  | .error e => .error [e]
  | .ok raw2 => pcb_board_combined_parse raw2

/-- Re-feeding a produced descriptor as raw input (spec §8, idempotent
defaulting): every populated field is supplied, absent optionals stay
absent, and the discriminant and shape fields are laid out as the variant
dictates. -/
def PcbBoard.toRaw (d : PcbBoard) : RawBoardInput :=
  { type_ := some d.type_
    pcb_board_id := some d.pcb_board_id
    pcb_panel_id := d.pcb_panel_id
    is_subcircuit := d.is_subcircuit
    subcircuit_id := d.subcircuit_id
    center := some d.center
    display_offset_x := d.display_offset_x
    display_offset_y := d.display_offset_y
    thickness := some d.thickness
    num_layers := some d.num_layers
    material := some d.material
    anchor_position := d.anchor_position
    anchor_alignment := d.anchor_alignment
    position_mode := d.position_mode
    shape := some d.shape
    width := d.width
    height := d.height
    outline := d.outline }

/-! ## The unrelated `autorouting_error` record schema (lines 159-178) -/

/-- Raw input to the `autorouting_error` schema. -/
structure RawAutoroutingError where
  type_ : Option String := none
  pcb_error_id : Option String := none
  message : Option String := none
deriving DecidableEq, Repr

/-- The validated `autorouting_error` record. -/
structure AutoroutingError where
  type_ : String
  pcb_error_id : String
  message : String
deriving DecidableEq, Repr

/-- Parse of the required `message: z.string()` field. -/
def parse_message (o : Option String) : Except ZodIssue String :=
  match o with
  | some s => .ok s
  | none => .error (.required "message")

/-- Parse against the `autorouting_error` schema: literal `type`, a
`pcb_error_id` defaulted by the external generator when absent, and a
required string `message`. -/
def autorouting_error_parse (raw : RawAutoroutingError) :
    Except (List ZodIssue) AutoroutingError :=
  match parse_type_literal "autorouting_error" raw.type_, parse_message raw.message with
  | .ok t, .ok m =>
      .ok { type_ := t
            pcb_error_id := raw.pcb_error_id.getD (generatedId "autorouting_error")
            message := m }
  | t, m => .error (errs t ++ errs m)

/-- The invariant every successfully produced descriptor satisfies: the
literal `type`, a positive thickness, recognized enum values, and positive
rect dimensions — exactly what re-validation on a second pass checks. -/
def CanonicalShape : PcbBoardShapeProperties → Prop
  | .rect w h => 0 < w ∧ 0 < h
  | .polygon _ => True

def Canonical (d : PcbBoard) : Prop :=
  d.type_ = "pcb_board" ∧ 0 < d.thickness ∧ (d.material = "fr4" ∨ d.material = "fr1") ∧
  parse_anchor_alignment d.anchor_alignment = .ok d.anchor_alignment ∧
  parse_position_mode d.position_mode = .ok d.position_mode ∧
  CanonicalShape d.shapeProps

/-- A well-formed polygon input with outline `pts`, and its parse result. -/
def polygonInput (pts : List Point) : RawBoardInput :=
  { type_ := some "pcb_board", center := some ⟨0, 0⟩, outline := some pts }

def polygonBoard (pts : List Point) : PcbBoard :=
  { type_ := "pcb_board", pcb_board_id := generatedId "pcb_board", pcb_panel_id := none,
    is_subcircuit := none, subcircuit_id := none, center := ⟨0, 0⟩, display_offset_x := none,
    display_offset_y := none, thickness := 14 / 10, num_layers := 4, material := "fr4",
    anchor_position := none, anchor_alignment := none, position_mode := none,
    shapeProps := .polygon pts }

/-! ## Concrete scenario inputs (spec §8) and witnesses -/

def scenA : RawBoardInput :=
  { type_ := some "pcb_board", center := some ⟨0, 0⟩, width := some 10, height := some 20 }

def scenABoard : PcbBoard :=
  { type_ := "pcb_board", pcb_board_id := generatedId "pcb_board", pcb_panel_id := none,
    is_subcircuit := none, subcircuit_id := none, center := ⟨0, 0⟩, display_offset_x := none,
    display_offset_y := none, thickness := 14 / 10, num_layers := 4, material := "fr4",
    anchor_position := none, anchor_alignment := none, position_mode := none,
    shapeProps := .rect 10 20 }

def scenB : RawBoardInput := polygonInput [⟨0, 0⟩, ⟨10, 0⟩, ⟨10, 10⟩, ⟨0, 10⟩]

def scenBBoard : PcbBoard := polygonBoard [⟨0, 0⟩, ⟨10, 0⟩, ⟨10, 10⟩, ⟨0, 10⟩]

def scenC : RawBoardInput :=
  { center := some ⟨0, 0⟩, width := some 10, height := some 20,
    outline := some [⟨0, 0⟩, ⟨1, 1⟩] }

def scenD : RawBoardInput := { type_ := some "pcb_board", center := some ⟨0, 0⟩ }

def scenE : RawBoardInput :=
  { type_ := some "pcb_board", center := some ⟨0, 0⟩, shape := some "rect",
    outline := some [⟨0, 0⟩, ⟨1, 1⟩] }

def scenH : RawBoardInput :=
  { type_ := some "pcb_board", center := some ⟨0, 0⟩, shape := some "circle",
    width := some 5 }

def scenF : RawBoardInput :=
  { type_ := some "pcb_board", center := some ⟨0, 0⟩, shape := some "",
    outline := some [⟨0, 0⟩, ⟨1, 1⟩] }

def scenG : RawBoardInput :=
  { type_ := some "pcb_board", center := some ⟨0, 0⟩, shape := some "", width := some 5 }

def rawAE1 : RawAutoroutingError :=
  { type_ := some "autorouting_error", pcb_error_id := some "err_1", message := some "hello" }

def outAE1 : AutoroutingError :=
  { type_ := "autorouting_error", pcb_error_id := "err_1", message := "hello" }


def rawAE0 : RawAutoroutingError :=
  { type_ := some "autorouting_error", pcb_error_id := none, message := some "m" }

theorem errs_mem {α : Type} {x : Except ZodIssue α} {e : ZodIssue} (h : e ∈ errs x) :
    x = .error e := by
  cases x with
  | ok a => simp [errs] at h
  | error e2 => simp [errs] at h; simp [h]

theorem parse_length_ok {p : String} {r v : Rat} (h : parse_length p r = .ok v) :
    v = r ∧ 0 < r := by
  unfold parse_length at h
  split at h <;> simp_all

theorem parse_length_pos (p : String) {r : Rat} (h : 0 < r) : parse_length p r = .ok r := by
  simp [parse_length, h]

theorem parse_type_literal_ok {lit : String} {o : Option String} {v : String}
    (h : parse_type_literal lit o = .ok v) : o = some lit ∧ v = lit := by
  unfold parse_type_literal at h
  split at h <;> try split at h
  all_goals simp_all

theorem parse_type_literal_err {lit : String} {o : Option String} {e : ZodIssue}
    (h : parse_type_literal lit o = .error e) : e = .invalidLiteral "type" := by
  unfold parse_type_literal at h
  split at h <;> try split at h
  all_goals simp_all

theorem parse_center_ok {o : Option Point} {v : Point} (h : parse_center o = .ok v) :
    o = some v := by
  unfold parse_center at h
  split at h <;> simp_all

theorem parse_center_err {o : Option Point} {e : ZodIssue} (h : parse_center o = .error e) :
    e = .required "center" := by
  unfold parse_center at h
  split at h <;> simp_all

theorem parse_thickness_ok {o : Option Rat} {v : Rat} (h : parse_thickness o = .ok v) :
    0 < v ∧ (o = some v ∨ (o = none ∧ v = 14 / 10)) := by
  unfold parse_thickness at h
  split at h <;> rename_i heq
  · obtain ⟨h1, h2⟩ := parse_length_ok h; simp_all
  · obtain ⟨h1, h2⟩ := parse_length_ok h; simp_all

theorem parse_thickness_err {o : Option Rat} {e : ZodIssue} (h : parse_thickness o = .error e) :
    e = .invalidType "thickness" := by
  unfold parse_thickness parse_length at h
  split at h <;> split at h <;> simp_all

theorem parse_material_ok {o : Option String} {v : String} (h : parse_material o = .ok v) :
    (v = "fr4" ∨ v = "fr1") ∧ (o = some v ∨ (o = none ∧ v = "fr4")) := by
  unfold parse_material at h
  split at h <;> try split at h
  all_goals simp_all

theorem parse_material_err {o : Option String} {e : ZodIssue} (h : parse_material o = .error e) :
    e = .invalidEnumValue "material" := by
  unfold parse_material at h
  split at h <;> try split at h
  all_goals simp_all

theorem parse_material_some {v : String} (h : v = "fr4" ∨ v = "fr1") :
    parse_material (some v) = .ok v := by
  unfold parse_material
  simp [h]

theorem parse_anchor_alignment_ok {o v : Option String}
    (h : parse_anchor_alignment o = .ok v) : o = v := by
  unfold parse_anchor_alignment at h
  split at h <;> try split at h
  all_goals simp_all

theorem parse_anchor_alignment_idem {o v : Option String}
    (h : parse_anchor_alignment o = .ok v) : parse_anchor_alignment v = .ok v := by
  obtain rfl := parse_anchor_alignment_ok h
  exact h

theorem parse_anchor_alignment_err {o : Option String} {e : ZodIssue}
    (h : parse_anchor_alignment o = .error e) : e = .invalidEnumValue "anchor_alignment" := by
  unfold parse_anchor_alignment at h
  split at h <;> try split at h
  all_goals simp_all

theorem parse_position_mode_ok {o v : Option String}
    (h : parse_position_mode o = .ok v) : o = v := by
  unfold parse_position_mode at h
  split at h <;> try split at h
  all_goals simp_all

theorem parse_position_mode_idem {o v : Option String}
    (h : parse_position_mode o = .ok v) : parse_position_mode v = .ok v := by
  obtain rfl := parse_position_mode_ok h
  exact h

theorem parse_position_mode_err {o : Option String} {e : ZodIssue}
    (h : parse_position_mode o = .error e) : e = .invalidEnumValue "position_mode" := by
  unfold parse_position_mode at h
  split at h <;> try split at h
  all_goals simp_all

theorem parse_width_ok {o : Option Rat} {v : Rat} (h : parse_width o = .ok v) :
    o = some v ∧ 0 < v := by
  unfold parse_width at h
  split at h
  · obtain ⟨h1, h2⟩ := parse_length_ok h; simp_all
  · simp_all

theorem parse_height_ok {o : Option Rat} {v : Rat} (h : parse_height o = .ok v) :
    o = some v ∧ 0 < v := by
  unfold parse_height at h
  split at h
  · obtain ⟨h1, h2⟩ := parse_length_ok h; simp_all
  · simp_all

theorem base_parse_ok_inv {raw : RawBoardInput} {b : PcbBoardBase}
    (h : pcb_board_base_parse raw = .ok b) :
    parse_type_literal "pcb_board" raw.type_ = .ok b.type_ ∧
    parse_center raw.center = .ok b.center ∧
    parse_thickness raw.thickness = .ok b.thickness ∧
    parse_material raw.material = .ok b.material ∧
    parse_anchor_alignment raw.anchor_alignment = .ok b.anchor_alignment ∧
    parse_position_mode raw.position_mode = .ok b.position_mode ∧
    b.pcb_board_id = raw.pcb_board_id.getD (generatedId "pcb_board") ∧
    b.num_layers = raw.num_layers.getD 4 ∧
    b.pcb_panel_id = raw.pcb_panel_id ∧ b.is_subcircuit = raw.is_subcircuit ∧
    b.subcircuit_id = raw.subcircuit_id ∧ b.display_offset_x = raw.display_offset_x ∧
    b.display_offset_y = raw.display_offset_y ∧ b.anchor_position = raw.anchor_position := by
  unfold pcb_board_base_parse at h
  split at h
  · injection h with h
    subst h
    simp_all
  · simp at h


theorem base_parse_err_inv {raw : RawBoardInput} {es : List ZodIssue}
    (h : pcb_board_base_parse raw = .error es) : es = pcb_board_base_issues raw := by
  unfold pcb_board_base_parse at h
  split at h
  · simp at h
  · simp only [Except.error.injEq] at h
    exact h.symm

theorem base_issues_forms {raw : RawBoardInput} {e : ZodIssue}
    (h : e ∈ pcb_board_base_issues raw) :
    e = .invalidLiteral "type" ∨ e = .required "center" ∨ e = .invalidType "thickness" ∨
    e = .invalidEnumValue "material" ∨ e = .invalidEnumValue "anchor_alignment" ∨
    e = .invalidEnumValue "position_mode" := by
  unfold pcb_board_base_issues at h
  simp only [List.mem_append] at h
  rcases h with ((((h | h) | h) | h) | h) | h
  · exact Or.inl (parse_type_literal_err (errs_mem h))
  · exact Or.inr (Or.inl (parse_center_err (errs_mem h)))
  · exact Or.inr (Or.inr (Or.inl (parse_thickness_err (errs_mem h))))
  · exact Or.inr (Or.inr (Or.inr (Or.inl (parse_material_err (errs_mem h)))))
  · exact Or.inr (Or.inr (Or.inr (Or.inr (Or.inl (parse_anchor_alignment_err (errs_mem h))))))
  · exact Or.inr (Or.inr (Or.inr (Or.inr (Or.inr (parse_position_mode_err (errs_mem h))))))

theorem shape_parse_ok_inv {raw : RawBoardInput} {s : PcbBoardShapeProperties}
    (h : pcb_board_shape_parse raw = .ok s) :
    (∃ w h', raw.shape = some "rect" ∧ raw.width = some w ∧ raw.height = some h' ∧
      0 < w ∧ 0 < h' ∧ s = .rect w h') ∨
    (∃ pts, raw.shape = some "polygon" ∧ raw.outline = some pts ∧ s = .polygon pts) := by
  unfold pcb_board_shape_parse at h
  split at h
  · rename_i hs
    split at h
    · rename_i w h' hw hh
      obtain ⟨hw1, hw2⟩ := parse_width_ok hw
      obtain ⟨hh1, hh2⟩ := parse_height_ok hh
      exact Or.inl ⟨w, h', hs, hw1, hh1, hw2, hh2, by simp_all⟩
    · simp at h
  · rename_i hs
    split at h
    · rename_i pts ho
      exact Or.inr ⟨pts, hs, ho, by simp_all⟩
    · simp at h
  · simp at h

theorem shape_parse_rect_ok {raw : RawBoardInput} {w h' : Rat}
    (hs : raw.shape = some "rect") (hw : raw.width = some w) (hh : raw.height = some h')
    (hw2 : 0 < w) (hh2 : 0 < h') :
    pcb_board_shape_parse raw = .ok (.rect w h') := by
  unfold pcb_board_shape_parse
  rw [hs]
  simp [parse_width, parse_height, hw, hh, parse_length_pos _ hw2, parse_length_pos _ hh2]

theorem shape_parse_polygon_ok {raw : RawBoardInput} {pts : List Point}
    (hs : raw.shape = some "polygon") (ho : raw.outline = some pts) :
    pcb_board_shape_parse raw = .ok (.polygon pts) := by
  unfold pcb_board_shape_parse
  rw [hs]
  simp [ho]

theorem shape_parse_unknown {raw : RawBoardInput}
    (hs : ∀ t, raw.shape = some t → t ≠ "rect" ∧ t ≠ "polygon") :
    pcb_board_shape_parse raw = .error [.invalidUnionDiscriminator] := by
  unfold pcb_board_shape_parse
  split
  · rename_i heq
    exact absurd rfl (hs _ heq).1
  · rename_i heq
    exact absurd rfl (hs _ heq).2
  · rfl

theorem combined_ok_inv {raw : RawBoardInput} {d : PcbBoard}
    (h : pcb_board_combined_parse raw = .ok d) :
    ∃ b s, pcb_board_base_parse raw = .ok b ∧
      pcb_board_shape_parse raw = .ok s ∧ d = mkPcbBoard b s := by
  unfold pcb_board_combined_parse at h
  split at h
  · rename_i b s hb hs
    injection h with h
    exact ⟨b, s, hb, hs, h.symm⟩
  · simp at h

theorem combined_ok_of_parts {raw : RawBoardInput} {b : PcbBoardBase}
    {s : PcbBoardShapeProperties} (hb : pcb_board_base_parse raw = .ok b)
    (hs : pcb_board_shape_parse raw = .ok s) :
    pcb_board_combined_parse raw = .ok (mkPcbBoard b s) := by
  unfold pcb_board_combined_parse
  rw [hb, hs]

theorem combined_err_of_shape {raw : RawBoardInput} {es : List ZodIssue}
    (hs : pcb_board_shape_parse raw = .error es) :
    pcb_board_combined_parse raw =
      .error (errsL (pcb_board_base_parse raw) ++ es) := by
  unfold pcb_board_combined_parse
  cases hb : pcb_board_base_parse raw <;> rw [hs] <;> simp [errsL]

theorem preprocess_conflict {raw : RawBoardInput}
    (hw : (raw.width.isSome || raw.height.isSome) = true) (ho : raw.outline.isSome = true) :
    pcb_board_preprocess raw = .error (.custom conflictMessage) := by
  unfold pcb_board_preprocess
  simp [hw, ho]

theorem preprocess_ok_inv {raw raw2 : RawBoardInput}
    (h : pcb_board_preprocess raw = .ok raw2) :
    ((raw.width.isSome || raw.height.isSome) && raw.outline.isSome) = false ∧
    (raw2 = raw ∨ raw2 = { raw with shape := some "polygon" } ∨
      raw2 = { raw with shape := some "rect" }) := by
  unfold pcb_board_preprocess at h
  by_cases hconf : ((raw.width.isSome || raw.height.isSome) && raw.outline.isSome) = true
  · simp [hconf] at h
  · rw [Bool.not_eq_true] at hconf
    refine ⟨hconf, ?_⟩
    by_cases hsf : shapeFalsy raw.shape = true
    · by_cases ho : raw.outline.isSome = true
      · have hw : (raw.width.isSome || raw.height.isSome) = false := by
          cases hww : (raw.width.isSome || raw.height.isSome) with
          | false => rfl
          | true => rw [hww, ho] at hconf; simp at hconf
        simp [hw, hsf, ho] at h
        exact Or.inr (Or.inl h.symm)
      · rw [Bool.not_eq_true] at ho
        by_cases hw : (raw.width.isSome || raw.height.isSome) = true
        · simp [hconf, hsf, ho, hw] at h
          exact Or.inr (Or.inr h.symm)
        · rw [Bool.not_eq_true] at hw
          simp [hconf, hsf, ho, hw] at h
          exact Or.inl h.symm
    · rw [Bool.not_eq_true] at hsf
      simp [hconf, hsf] at h
      exact Or.inl h.symm

theorem preprocess_infer_polygon {raw : RawBoardInput} {pts : List Point}
    (hsf : shapeFalsy raw.shape = true) (ho : raw.outline = some pts)
    (hw : raw.width = none) (hh : raw.height = none) :
    pcb_board_preprocess raw = .ok { raw with shape := some "polygon" } := by
  unfold pcb_board_preprocess
  simp [hsf, ho, hw, hh]

theorem preprocess_infer_rect {raw : RawBoardInput}
    (hsf : shapeFalsy raw.shape = true) (ho : raw.outline = none)
    (hw : (raw.width.isSome || raw.height.isSome) = true) :
    pcb_board_preprocess raw = .ok { raw with shape := some "rect" } := by
  unfold pcb_board_preprocess
  simp [hsf, ho, hw]

theorem preprocess_no_infer {raw : RawBoardInput}
    (hsf : shapeFalsy raw.shape = true) (ho : raw.outline = none)
    (hw : raw.width = none) (hh : raw.height = none) :
    pcb_board_preprocess raw = .ok raw := by
  unfold pcb_board_preprocess
  simp [hsf, ho, hw, hh]

theorem preprocess_keep {raw : RawBoardInput}
    (hsf : shapeFalsy raw.shape = false)
    (hc : ((raw.width.isSome || raw.height.isSome) && raw.outline.isSome) = false) :
    pcb_board_preprocess raw = .ok raw := by
  unfold pcb_board_preprocess
  simp [hsf, hc]

theorem parse_ok_canonical {raw : RawBoardInput} {d : PcbBoard}
    (h : pcb_board_parse raw = .ok d) : Canonical d := by
  unfold pcb_board_parse at h
  cases hp : pcb_board_preprocess raw with
  | error e => rw [hp] at h; simp at h
  | ok raw2 =>
    rw [hp] at h
    obtain ⟨b, s, hb, hs, hd⟩ := combined_ok_inv h
    obtain ⟨ht, hc, hth, hm, haa, hpm, _⟩ := base_parse_ok_inv hb
    obtain ⟨_, hlit⟩ := parse_type_literal_ok ht
    obtain ⟨hthpos, _⟩ := parse_thickness_ok hth
    obtain ⟨hmok, _⟩ := parse_material_ok hm
    have hshape : CanonicalShape s := by
      rcases shape_parse_ok_inv hs with ⟨w, h', _, _, _, hw2, hh2, hrect⟩ | ⟨pts, _, _, hpoly⟩
      · rw [hrect]; exact ⟨hw2, hh2⟩
      · rw [hpoly]; trivial
    subst hd
    exact ⟨by simp [mkPcbBoard, hlit], by simpa [mkPcbBoard] using hthpos,
      by simpa [mkPcbBoard] using hmok,
      by simpa [mkPcbBoard] using parse_anchor_alignment_idem haa,
      by simpa [mkPcbBoard] using parse_position_mode_idem hpm,
      by simpa [mkPcbBoard] using hshape⟩

theorem parse_type_literal_self (lit : String) : parse_type_literal lit (some lit) = .ok lit := by
  simp [parse_type_literal]

theorem parse_thickness_some {v : Rat} (h : 0 < v) : parse_thickness (some v) = .ok v := by
  simp [parse_thickness, parse_length, h]

theorem parse_width_pos {v : Rat} (h : 0 < v) : parse_width (some v) = .ok v := by
  simp [parse_width, parse_length, h]

theorem parse_height_pos {v : Rat} (h : 0 < v) : parse_height (some v) = .ok v := by
  simp [parse_height, parse_length, h]

theorem canonical_roundtrip {d : PcbBoard} (h : Canonical d) :
    pcb_board_parse d.toRaw = .ok d := by
  obtain ⟨t, id, panel, sub, subid, ctr, dx, dy, th, nl, mat, ap, aa, pm, sp⟩ := d
  obtain ⟨ht, hth, hm, haa, hpm, hshape⟩ := h
  simp only at ht hth hm haa hpm hshape
  subst ht
  have hthick := parse_thickness_some hth
  have hmat := parse_material_some hm
  cases sp with
  | rect w h' =>
    obtain ⟨hw, hh⟩ := hshape
    have hwid := parse_width_pos hw
    have hhei := parse_height_pos hh
    simp [pcb_board_parse, pcb_board_preprocess, shapeFalsy, pcb_board_combined_parse,
      pcb_board_base_parse, pcb_board_shape_parse, parse_type_literal, parse_center,
      PcbBoard.toRaw, PcbBoard.shape, PcbBoard.width, PcbBoard.height, PcbBoard.outline,
      mkPcbBoard, haa, hpm, hthick, hmat, hwid, hhei]
  | polygon pts =>
    simp [pcb_board_parse, pcb_board_preprocess, shapeFalsy, pcb_board_combined_parse,
      pcb_board_base_parse, pcb_board_shape_parse, parse_type_literal, parse_center,
      PcbBoard.toRaw, PcbBoard.shape, PcbBoard.width, PcbBoard.height, PcbBoard.outline,
      mkPcbBoard, haa, hpm, hthick, hmat]

theorem errsL_base_sub {raw : RawBoardInput} {e : ZodIssue}
    (h : e ∈ errsL (pcb_board_base_parse raw)) : e ∈ pcb_board_base_issues raw := by
  cases hb : pcb_board_base_parse raw with
  | ok b => rw [hb] at h; simp [errsL] at h
  | error es => rw [hb] at h; simp [errsL] at h; rw [← base_parse_err_inv hb]; exact h

/-- C1: whenever `width` or `height` is present together with `outline`,
normalization fails with the single `ConflictingShapeFields` (thrown
custom) issue — regardless of any explicit `shape` tag value, before the
discriminator is consulted and before any other validation, so the error
list contains nothing else (in particular no missing-required-field
issue). -/
theorem c1_conflict_has_priority (raw : RawBoardInput)
    (hwh : raw.width.isSome = true ∨ raw.height.isSome = true)
    (ho : raw.outline.isSome = true) :
    pcb_board_parse raw = .error [.custom conflictMessage] := by
  unfold pcb_board_parse
  rw [preprocess_conflict (by rcases hwh with h | h <;> simp [h]) ho]

/-- C5: for every descriptor produced by normalization, `shape = "rect"`
holds exactly when `width` and `height` are present and `outline` is
absent, and `shape = "polygon"` exactly when `outline` is present and
`width` and `height` are absent: the discriminant always agrees with the
populated shape fields. -/
theorem c5_discriminant_consistency {raw : RawBoardInput} {d : PcbBoard}
    (_h : pcb_board_parse raw = .ok d) :
    (d.shape = "rect" ↔ d.width.isSome ∧ d.height.isSome ∧ d.outline = none) ∧
    (d.shape = "polygon" ↔ d.outline.isSome ∧ d.width = none ∧ d.height = none) := by
  cases hsp : d.shapeProps <;>
    simp [PcbBoard.shape, PcbBoard.width, PcbBoard.height, PcbBoard.outline, hsp]

/-- C6: normalization is idempotent — re-feeding a successfully produced
descriptor as raw input succeeds and yields the identical descriptor; no
default, discriminant, or field changes on a second pass. -/
theorem c6_normalize_idempotent {raw : RawBoardInput} {d : PcbBoard}
    (h : pcb_board_parse raw = .ok d) : pcb_board_parse d.toRaw = .ok d :=
  canonical_roundtrip (parse_ok_canonical h)

theorem preprocess_result_fields {raw raw2 : RawBoardInput}
    (h : raw2 = raw ∨ raw2 = { raw with shape := some "polygon" } ∨
      raw2 = { raw with shape := some "rect" }) :
    raw2.type_ = raw.type_ ∧ raw2.center = raw.center ∧ raw2.thickness = raw.thickness ∧
    raw2.num_layers = raw.num_layers ∧ raw2.material = raw.material ∧
    raw2.width = raw.width ∧ raw2.height = raw.height ∧ raw2.outline = raw.outline := by
  rcases h with rfl | rfl | rfl <;> simp

/-- C4: for every successfully normalized input, a missing `thickness`
comes out as the standard board thickness constant 1.4 (mm), a missing
`num_layers` as 4, and a missing `material` as `"fr4"`; the defaults are
baked into the constructed output value. -/
theorem c4_defaults_baked_in {raw : RawBoardInput} {d : PcbBoard}
    (h : pcb_board_parse raw = .ok d) :
    (raw.thickness = none → d.thickness = 14 / 10) ∧
    (raw.num_layers = none → d.num_layers = 4) ∧
    (raw.material = none → d.material = "fr4") := by
  unfold pcb_board_parse at h
  cases hp : pcb_board_preprocess raw with
  | error e => rw [hp] at h; simp at h
  | ok raw2 =>
    rw [hp] at h
    obtain ⟨-, hcases⟩ := preprocess_ok_inv hp
    obtain ⟨-, -, hth2, hnl2, hm2, -⟩ := preprocess_result_fields hcases
    obtain ⟨b, s, hb, hs, hd⟩ := combined_ok_inv h
    obtain ⟨ht, hc, hth, hm, haa, hpm, hid, hnl, -⟩ := base_parse_ok_inv hb
    subst hd
    refine ⟨?_, ?_, ?_⟩
    · intro hn
      obtain ⟨-, hcase⟩ := parse_thickness_ok hth
      rcases hcase with hsome | ⟨-, hval⟩
      · rw [hth2, hn] at hsome; cases hsome
      · simp [mkPcbBoard, hval]
    · intro hn
      simp [mkPcbBoard, hnl, hnl2, hn]
    · intro hn
      obtain ⟨-, hcase⟩ := parse_material_ok hm
      rcases hcase with hsome | ⟨-, hval⟩
      · rw [hm2, hn] at hsome; cases hsome
      · simp [mkPcbBoard, hval]

/-- C7: an input validated as the rect variant must supply both `width`
and `height` as positive lengths (the produced rect dimensions come from
the supplied fields and are positive), and no input carrying a
non-positive `width` or `height` can normalize successfully. -/
theorem c7_rect_dimensions_positive {raw : RawBoardInput} {d : PcbBoard}
    (h : pcb_board_parse raw = .ok d) :
    (∀ w h', d.shapeProps = .rect w h' →
      raw.width = some w ∧ raw.height = some h' ∧ 0 < w ∧ 0 < h') ∧
    (∀ w, raw.width = some w → 0 < w) ∧ (∀ h', raw.height = some h' → 0 < h') := by
  unfold pcb_board_parse at h
  cases hp : pcb_board_preprocess raw with
  | error e => rw [hp] at h; simp at h
  | ok raw2 =>
    rw [hp] at h
    obtain ⟨hcf, hcases⟩ := preprocess_ok_inv hp
    obtain ⟨-, -, -, -, -, hw2, hh2, ho2⟩ := preprocess_result_fields hcases
    obtain ⟨b, s, hb, hs, hd⟩ := combined_ok_inv h
    rcases shape_parse_ok_inv hs with
      ⟨w, h', hsr, hww, hhh, hwp, hhp, hrect⟩ | ⟨pts, hspoly, ho, hpoly⟩
    · rw [hw2] at hww
      rw [hh2] at hhh
      refine ⟨?_, ?_, ?_⟩
      · intro w0 h0 heq
        subst hd
        simp only [mkPcbBoard] at heq
        rw [hrect] at heq
        injection heq with e1 e2
        subst e1; subst e2
        exact ⟨hww, hhh, hwp, hhp⟩
      · intro w0 hw0
        rw [hw0] at hww; injection hww with e; subst e; exact hwp
      · intro h0 hh0
        rw [hh0] at hhh; injection hhh with e; subst e; exact hhp
    · rw [ho2] at ho
      have hout : raw.outline.isSome = true := by simp [ho]
      have hwnone : raw.width = none ∧ raw.height = none := by
        rw [hout, Bool.and_true] at hcf
        constructor
        · cases hx : raw.width with
          | none => rfl
          | some x => rw [hx] at hcf; simp at hcf
        · cases hx : raw.height with
          | none => rfl
          | some x => rw [hx] at hcf; simp at hcf
      refine ⟨?_, ?_, ?_⟩
      · intro w0 h0 heq
        subst hd
        simp only [mkPcbBoard] at heq
        rw [hpoly] at heq
        cases heq
      · intro w0 hw0
        rw [hwnone.1] at hw0; cases hw0
      · intro h0 hh0
        rw [hwnone.2] at hh0; cases hh0

theorem parse_of_preprocess_ok {raw raw2 : RawBoardInput}
    (h : pcb_board_preprocess raw = .ok raw2) :
    pcb_board_parse raw = pcb_board_combined_parse raw2 := by
  unfold pcb_board_parse
  rw [h]

/-- C2 (amended): for inputs lacking an explicit `shape` tag, if
`outline` is present a successful normalization yields `shape = polygon`;
else if `width` or `height` is present it yields `shape = rect`; else
normalization fails — but the failure is zod's invalid-union-discriminator
issue (`UnknownOrMismatchedShape`), not a `MissingRequiredField` failure:
the only required-field issue that can accompany it concerns the
universally required `center`, never a shape field. -/
theorem c2_inference_and_fallthrough :
    (∀ (raw : RawBoardInput) (d : PcbBoard) (pts : List Point), raw.shape = none →
      raw.outline = some pts → pcb_board_parse raw = .ok d → d.shape = "polygon") ∧
    (∀ (raw : RawBoardInput) (d : PcbBoard), raw.shape = none → raw.outline = none →
      (raw.width.isSome = true ∨ raw.height.isSome = true) →
      pcb_board_parse raw = .ok d → d.shape = "rect") ∧
    (∀ raw : RawBoardInput, raw.shape = none → raw.outline = none → raw.width = none →
      raw.height = none →
      pcb_board_parse raw =
        .error (errsL (pcb_board_base_parse raw) ++ [.invalidUnionDiscriminator]) ∧
      ∀ p, ZodIssue.required p ∈ errsL (pcb_board_base_parse raw) → p = "center") := by
  refine ⟨?_, ?_, ?_⟩
  · intro raw d pts hs ho hok
    unfold pcb_board_parse at hok
    by_cases hwh : (raw.width.isSome || raw.height.isSome) = true
    · rw [preprocess_conflict hwh (by simp [ho])] at hok
      simp at hok
    · rw [Bool.not_eq_true] at hwh
      have hw : raw.width = none := by
        cases hx : raw.width with
        | none => rfl
        | some x => rw [hx] at hwh; simp at hwh
      have hh : raw.height = none := by
        cases hx : raw.height with
        | none => rfl
        | some x => rw [hx] at hwh; simp at hwh
      rw [preprocess_infer_polygon (by simp [hs, shapeFalsy]) ho hw hh] at hok
      obtain ⟨b, s, hb, hsp, hd⟩ := combined_ok_inv hok
      rcases shape_parse_ok_inv hsp with ⟨w, h', hsr, -⟩ | ⟨pts', -, -, hpoly⟩
      · simp at hsr
      · subst hd
        simp [PcbBoard.shape, mkPcbBoard, hpoly]
  · intro raw d hs ho hwh hok
    unfold pcb_board_parse at hok
    rw [preprocess_infer_rect (by simp [hs, shapeFalsy]) ho
      (by rcases hwh with h | h <;> simp [h])] at hok
    obtain ⟨b, s, hb, hsp, hd⟩ := combined_ok_inv hok
    rcases shape_parse_ok_inv hsp with ⟨w, h', -, -, -, -, -, hrect⟩ | ⟨pts', hspoly, -⟩
    · subst hd
      simp [PcbBoard.shape, mkPcbBoard, hrect]
    · simp at hspoly
  · intro raw hs ho hw hh
    have hpre := preprocess_no_infer (by simp [hs, shapeFalsy]) ho hw hh
    have hshape : pcb_board_shape_parse raw = .error [.invalidUnionDiscriminator] :=
      shape_parse_unknown (fun t ht => by rw [hs] at ht; cases ht)
    refine ⟨?_, ?_⟩
    · rw [parse_of_preprocess_ok hpre, combined_err_of_shape hshape]
    · intro p hp
      rcases base_issues_forms (errsL_base_sub hp) with h1 | h1 | h1 | h1 | h1 | h1 <;>
        simp_all

/-- C3 (amended): an explicit non-falsy `shape` tag that is neither
`"rect"` nor `"polygon"` makes normalization fail with the
invalid-union-discriminator (`UnknownOrMismatchedShape`) issue (when the
conflict check does not fire first); but an explicit tag that merely
contradicts the supplied fields — `shape: "rect"` with an `outline` and no
width/height — selects the tagged variant and fails with
`MissingRequiredField` issues for that variant's absent required fields,
not with `UnknownOrMismatchedShape`. -/
theorem c3_unknown_vs_mismatched_tag :
    (∀ (raw : RawBoardInput) (t : String), raw.shape = some t → t ≠ "rect" → t ≠ "polygon" →
      t ≠ "" → ((raw.width.isSome || raw.height.isSome) && raw.outline.isSome) = false →
      pcb_board_parse raw =
        .error (errsL (pcb_board_base_parse raw) ++ [.invalidUnionDiscriminator])) ∧
    (∀ raw : RawBoardInput, raw.shape = some "rect" → raw.width = none → raw.height = none →
      raw.outline.isSome = true →
      pcb_board_parse raw =
        .error (errsL (pcb_board_base_parse raw) ++
          [.required "width", .required "height"])) := by
  constructor
  · intro raw t hs hr hp he hc
    have hpre := preprocess_keep (by simp [shapeFalsy, hs, he]) hc
    have hshape : pcb_board_shape_parse raw = .error [.invalidUnionDiscriminator] :=
      shape_parse_unknown (fun t' ht' => by
        rw [hs] at ht'
        injection ht' with h2
        subst h2
        exact ⟨hr, hp⟩)
    rw [parse_of_preprocess_ok hpre, combined_err_of_shape hshape]
  · intro raw hs hw hh ho
    have hc : ((raw.width.isSome || raw.height.isSome) && raw.outline.isSome) = false := by
      simp [hw, hh]
    have hpre := preprocess_keep (by simp [shapeFalsy, hs]) hc
    have hshape : pcb_board_shape_parse raw =
        .error [.required "width", .required "height"] := by
      unfold pcb_board_shape_parse
      rw [hs]
      simp [parse_width, parse_height, hw, hh, errs]
    rw [parse_of_preprocess_ok hpre, combined_err_of_shape hshape]

/-- C10: an explicit but falsy `shape` value (the empty string) is
treated like a missing tag: with exactly one kind of shape data supplied,
normalization behaves exactly as if the inferred discriminant
(`"polygon"` or `"rect"` respectively) had been supplied, silently
overwriting the falsy tag instead of rejecting it — and (witness) such an
input indeed normalizes successfully. -/
theorem c10_falsy_tag_overwritten :
    (∀ (raw : RawBoardInput) (pts : List Point), raw.shape = some "" → raw.width = none →
      raw.height = none → raw.outline = some pts →
      pcb_board_parse raw = pcb_board_parse { raw with shape := some "polygon" }) ∧
    (∀ raw : RawBoardInput, raw.shape = some "" → raw.outline = none →
      (raw.width.isSome || raw.height.isSome) = true →
      pcb_board_parse raw = pcb_board_parse { raw with shape := some "rect" }) := by
  constructor
  · intro raw pts hs hw hh ho
    rw [parse_of_preprocess_ok (preprocess_infer_polygon (by simp [hs, shapeFalsy]) ho hw hh),
      parse_of_preprocess_ok (@preprocess_keep { raw with shape := some "polygon" }
        (by simp [shapeFalsy]) (by simp [hw, hh]))]
  · intro raw hs ho hwh
    rw [parse_of_preprocess_ok (preprocess_infer_rect (by simp [hs, shapeFalsy]) ho hwh),
      parse_of_preprocess_ok (@preprocess_keep { raw with shape := some "rect" }
        (by simp [shapeFalsy]) (by simp [ho]))]

theorem parse_message_ok {o : Option String} {v : String} (h : parse_message o = .ok v) :
    o = some v := by
  unfold parse_message at h
  split at h <;> simp_all

/-- C8 (amended): `autorouting_error` validation checks required-field
presence and string typing and transforms nothing — a supplied `message`
and identifier pass through verbatim — except that, contrary to the
claim, an absent `pcb_error_id` IS filled in with the generated default
identifier. -/
theorem c8_autorouting_error_contract {raw : RawAutoroutingError} {out : AutoroutingError}
    (h : autorouting_error_parse raw = .ok out) :
    out.type_ = "autorouting_error" ∧ raw.message = some out.message ∧
    (∀ i, raw.pcb_error_id = some i → out.pcb_error_id = i) ∧
    (raw.pcb_error_id = none → out.pcb_error_id = generatedId "autorouting_error") := by
  unfold autorouting_error_parse at h
  split at h
  · rename_i t m ht hm
    injection h with h
    subst h
    obtain ⟨-, hlit⟩ := parse_type_literal_ok ht
    refine ⟨by simp [hlit], by simp [parse_message_ok hm], ?_, ?_⟩
    · intro i hi
      simp [hi]
    · intro hn
      simp [hn]
  · simp at h

/-- C9 (amended): the polygon variant requires `outline` to be present
as an ordered sequence of 2D points, but the sequence may be empty:
normalization succeeds on a polygon input whose outline is the empty
sequence (the rest of the record being valid). -/
theorem c9_outline_may_be_empty (pts : List Point) :
    pcb_board_parse (polygonInput pts) = .ok (polygonBoard pts) ∧
    (polygonBoard pts).outline = some pts := by
  constructor
  · norm_num [pcb_board_parse, pcb_board_preprocess, shapeFalsy, pcb_board_combined_parse,
      pcb_board_base_parse, pcb_board_shape_parse, parse_type_literal, parse_center,
      parse_thickness, parse_material, parse_anchor_alignment, parse_position_mode,
      parse_length, mkPcbBoard, polygonInput, polygonBoard]
  · simp [polygonBoard, PcbBoard.outline]

/-- C9 counterexample: a polygon input whose `outline` is the empty
sequence normalizes successfully, refuting that normalize "does not
succeed on a polygon input whose outline is an empty sequence". -/
theorem c9_empty_outline_succeeds :
    pcb_board_parse (polygonInput []) = .ok (polygonBoard []) ∧
    (polygonBoard []).outline = some [] := by
  constructor
  · norm_num [pcb_board_parse, pcb_board_preprocess, shapeFalsy, pcb_board_combined_parse,
      pcb_board_base_parse, pcb_board_shape_parse, parse_type_literal, parse_center,
      parse_thickness, parse_material, parse_anchor_alignment, parse_position_mode,
      parse_length, mkPcbBoard, polygonInput, polygonBoard]
  · simp [polygonBoard, PcbBoard.outline]

theorem parse_scenA_ok : pcb_board_parse scenA = .ok scenABoard := by
  norm_num [pcb_board_parse, pcb_board_preprocess, shapeFalsy, pcb_board_combined_parse,
    pcb_board_base_parse, pcb_board_shape_parse, parse_type_literal, parse_center,
    parse_thickness, parse_material, parse_anchor_alignment, parse_position_mode,
    parse_width, parse_height, parse_length, mkPcbBoard, scenA, scenABoard]

theorem parse_scenB_ok : pcb_board_parse scenB = .ok scenBBoard := by
  norm_num [pcb_board_parse, pcb_board_preprocess, shapeFalsy, pcb_board_combined_parse,
    pcb_board_base_parse, pcb_board_shape_parse, parse_type_literal, parse_center,
    parse_thickness, parse_material, parse_anchor_alignment, parse_position_mode,
    parse_length, mkPcbBoard, polygonInput, polygonBoard, scenB, scenBBoard]

theorem c1_witness : pcb_board_parse scenC = .error [.custom conflictMessage] :=
  c1_conflict_has_priority scenC (Or.inl rfl) rfl

theorem c2_witness : scenBBoard.shape = "polygon" ∧ scenABoard.shape = "rect" :=
  ⟨c2_inference_and_fallthrough.1 scenB scenBBoard [⟨0, 0⟩, ⟨10, 0⟩, ⟨10, 10⟩, ⟨0, 10⟩]
      rfl rfl parse_scenB_ok,
    c2_inference_and_fallthrough.2.1 scenA scenABoard rfl rfl (Or.inl rfl) parse_scenA_ok⟩

theorem c2_counterexample :
    pcb_board_parse scenD = .error [.invalidUnionDiscriminator] ∧
    ZodIssue.isRequired .invalidUnionDiscriminator = false := by
  constructor
  · norm_num [pcb_board_parse, pcb_board_preprocess, shapeFalsy, pcb_board_combined_parse,
      pcb_board_base_parse, pcb_board_shape_parse, parse_type_literal, parse_center,
      parse_thickness, parse_material, parse_anchor_alignment, parse_position_mode,
      parse_length, mkPcbBoard, errs, errsL, scenD]
  · rfl

theorem c3_witness :
    pcb_board_parse scenH =
      .error (errsL (pcb_board_base_parse scenH) ++ [.invalidUnionDiscriminator]) ∧
    pcb_board_parse scenE =
      .error (errsL (pcb_board_base_parse scenE) ++
        [.required "width", .required "height"]) :=
  ⟨c3_unknown_vs_mismatched_tag.1 scenH "circle" rfl (by decide) (by decide) (by decide) rfl,
    c3_unknown_vs_mismatched_tag.2 scenE rfl rfl rfl rfl⟩

theorem c3_counterexample :
    pcb_board_parse scenE = .error [.required "width", .required "height"] ∧
    ZodIssue.invalidUnionDiscriminator ∉
      [ZodIssue.required "width", ZodIssue.required "height"] := by
  constructor
  · have hpre : pcb_board_preprocess scenE = .ok scenE := by
      norm_num [pcb_board_preprocess, shapeFalsy, scenE]
      intro h
      exact absurd h (by decide)
    have hsh : pcb_board_shape_parse scenE =
        .error [.required "width", .required "height"] := by
      norm_num [pcb_board_shape_parse, parse_width, parse_height, errs, scenE]
    have hbase : errsL (pcb_board_base_parse scenE) = [] := by
      norm_num [pcb_board_base_parse, parse_type_literal, parse_center, parse_thickness,
        parse_material, parse_anchor_alignment, parse_position_mode, parse_length,
        errsL, scenE]
    rw [parse_of_preprocess_ok hpre, combined_err_of_shape hsh, hbase]
    rfl
  · decide

theorem c4_witness :
    scenABoard.thickness = 14 / 10 ∧ scenABoard.num_layers = 4 ∧
    scenABoard.material = "fr4" :=
  ⟨(c4_defaults_baked_in parse_scenA_ok).1 rfl, (c4_defaults_baked_in parse_scenA_ok).2.1 rfl,
    (c4_defaults_baked_in parse_scenA_ok).2.2 rfl⟩

theorem c5_witness :
    (scenABoard.shape = "rect" ↔
      scenABoard.width.isSome ∧ scenABoard.height.isSome ∧ scenABoard.outline = none) ∧
    (scenABoard.shape = "polygon" ↔
      scenABoard.outline.isSome ∧ scenABoard.width = none ∧ scenABoard.height = none) :=
  c5_discriminant_consistency parse_scenA_ok

theorem c6_witness : pcb_board_parse scenABoard.toRaw = .ok scenABoard :=
  c6_normalize_idempotent parse_scenA_ok

theorem c7_witness :
    scenA.width = some 10 ∧ scenA.height = some 20 ∧ (0 : Rat) < 10 ∧ (0 : Rat) < 20 :=
  (c7_rect_dimensions_positive parse_scenA_ok).1 10 20 rfl

theorem parse_rawAE1_ok : autorouting_error_parse rawAE1 = .ok outAE1 := by
  simp [autorouting_error_parse, parse_type_literal, parse_message, rawAE1, outAE1]

theorem c8_witness :
    outAE1.type_ = "autorouting_error" ∧ rawAE1.message = some outAE1.message ∧
    outAE1.pcb_error_id = "err_1" :=
  ⟨(c8_autorouting_error_contract parse_rawAE1_ok).1,
    (c8_autorouting_error_contract parse_rawAE1_ok).2.1,
    (c8_autorouting_error_contract parse_rawAE1_ok).2.2.1 "err_1" rfl⟩

theorem c8_counterexample :
    autorouting_error_parse rawAE0 =
      .ok { type_ := "autorouting_error", pcb_error_id := generatedId "autorouting_error",
            message := "m" } ∧
    rawAE0.pcb_error_id = none := by
  constructor
  · simp [autorouting_error_parse, parse_type_literal, parse_message, rawAE0]
  · rfl

theorem c10_witness :
    pcb_board_parse scenF = pcb_board_parse { scenF with shape := some "polygon" } ∧
    pcb_board_parse scenG = pcb_board_parse { scenG with shape := some "rect" } :=
  ⟨c10_falsy_tag_overwritten.1 scenF [⟨0, 0⟩, ⟨1, 1⟩] rfl rfl rfl rfl,
    c10_falsy_tag_overwritten.2 scenG rfl rfl rfl⟩
